import Mathlib

/-!
Verification development for the stub TLS implementation
(`src/platform/tls_stub.c`).

The C code is shallowly embedded: bytes are `Nat` values (< 256 by
construction of the reads/writes), byte buffers are `List Nat`, machine
integers use explicit `% 2^16` / `% 2^24` arithmetic where the C truncates,
and the fail-fast `QUIC_FRE_ASSERT` aborts (plus the null-pointer
dereferences that a release build would perform) are modelled by an
`Option` result, with `none` standing for "the call does not return".

External collaborators are not part of the repository source; following the
specification's boundary description they are modelled as oracle data:
the certificate capability's outcomes (`CertSelectOk`, `CertParseOk`,
`CertValidateOk`) are boolean fields, and the transport-parameter delivery
callback is modelled by returning the list of delivered byte strings.
-/

set_option maxRecDepth 10000

namespace TlsStub

/-- Read one byte of a buffer; out-of-range reads yield 0 (the C code never
performs them on the paths proved here). -/
def byteAt (l : List Nat) (i : Nat) : Nat := l.getD i 0

/-- Embeds `TlsReadUint16`: big-endian 16-bit read at offset `i`. -/
def tlsReadUint16 (b : List Nat) (i : Nat) : Nat :=
  byteAt b i * 256 + byteAt b (i + 1)

/-- Embeds `TlsWriteUint16`: big-endian 16-bit write (the C stores the two
truncated bytes of `Value`). -/
def tlsWriteUint16 (v : Nat) : List Nat := [v / 256 % 256, v % 256]

/-- Embeds `TlsReadUint24`: big-endian 24-bit read at offset `i`. -/
def tlsReadUint24 (b : List Nat) (i : Nat) : Nat :=
  byteAt b i * 65536 + byteAt b (i + 1) * 256 + byteAt b (i + 2)

/-- Embeds `TlsWriteUint24`: big-endian 24-bit write. -/
def tlsWriteUint24 (v : Nat) : List Nat :=
  [v / 65536 % 256, v / 256 % 256, v % 256]

/-- Overwrite `buf` starting at offset `off` with `data`; anything falling
outside the allocation is dropped (the C would write out of bounds there). -/
def writeBytes (buf : List Nat) (off : Nat) (data : List Nat) : List Nat :=
  buf.take off ++ data.take (buf.length - off) ++ buf.drop (off + data.length)

/-- Unsigned 16-bit subtraction as the C performs it: the `uint16_t`
operands are promoted to `int`, subtracted, and the result is truncated
back to `uint16_t` on assignment. -/
def sub16 (a b : Nat) : Nat := (a + 65536 - b) % 65536

/-- Value of `DrainLength = (uint16_t)TlsReadUint24(Length) + 4` stored into a
`uint16_t`: cast-to-16-bit first, add 4, truncate again. -/
def drain16 (declaredLen : Nat) : Nat := (declaredLen % 65536 + 4) % 65536

/-- Write to bit 1 of a byte (the `SERVER_INITIAL.EarlyDataAccepted : 1`
bitfield store leaves the other bits of the underlying byte unchanged). -/
def setBit1 (b : Nat) (v : Bool) : Nat :=
  b % 2 + b / 4 * 4 + (if v then 2 else 0)

/-- Embeds `QUIC_FAKE_TLS_MESSAGE_TYPE`. -/
inductive QUIC_FAKE_TLS_MESSAGE_TYPE where
  | INVALID
  | CLIENT_INITIAL
  | CLIENT_HANDSHAKE
  | SERVER_INITIAL
  | SERVER_HANDSHAKE
  | TICKET
deriving DecidableEq, Repr

/-- Embeds `MAX_PARAM_LENGTH`. -/
def MAX_PARAM_LENGTH : Nat := 256

/-- The `MinMessageLengths` table, indexed by message type. -/
def MinMessageLengths : QUIC_FAKE_TLS_MESSAGE_TYPE → Nat
  | .INVALID => 0
  | .CLIENT_INITIAL => 0
  | .CLIENT_HANDSHAKE => 7 + 1
  | .SERVER_INITIAL => 7 + 1
  | .SERVER_HANDSHAKE => 7 + 3 + MAX_PARAM_LENGTH
  | .TICKET => 7 + 1

/-- Embeds `QUIC_PACKET_KEY_TYPE` (epochs). -/
inductive QUIC_PACKET_KEY_TYPE where
  | INITIAL
  | ZERO_RTT
  | HANDSHAKE
  | ONE_RTT
deriving DecidableEq, Repr

/-- Embeds `QUIC_PACKET_KEY`: an opaque handle tagged with its epoch. -/
structure QUIC_PACKET_KEY where
  Type' : QUIC_PACKET_KEY_TYPE
deriving DecidableEq, Repr

/-- Embeds `QuicStubAllocKey`: always succeeds and returns a fresh key handle of
the requested epoch. -/
def quicStubAllocKey (t : QUIC_PACKET_KEY_TYPE) : QUIC_PACKET_KEY := ⟨t⟩

/-- The epoch-indexed key table of `QUIC_TLS_PROCESS_STATE` (`ReadKeys` /
`WriteKeys`: one optional key handle per epoch). -/
structure KeyTable where
  initialKey : Option QUIC_PACKET_KEY := none
  zeroRttKey : Option QUIC_PACKET_KEY := none
  handshakeKey : Option QUIC_PACKET_KEY := none
  oneRttKey : Option QUIC_PACKET_KEY := none
deriving DecidableEq, Repr

/-- Install a key in an epoch slot. -/
def KeyTable.set (tbl : KeyTable) (t : QUIC_PACKET_KEY_TYPE)
    (k : QUIC_PACKET_KEY) : KeyTable :=
  match t with
  | .INITIAL => { tbl with initialKey := some k }
  | .ZERO_RTT => { tbl with zeroRttKey := some k }
  | .HANDSHAKE => { tbl with handshakeKey := some k }
  | .ONE_RTT => { tbl with oneRttKey := some k }

/-- Embeds `QUIC_TLS_RESULT_FLAGS`, one boolean per bit of the C bitmask. -/
structure QUIC_TLS_RESULT_FLAGS where
  Error : Bool := false
  Data : Bool := false
  ReadKeyUpdated : Bool := false
  WriteKeyUpdated : Bool := false
  EarlyDataAccept : Bool := false
  EarlyDataReject : Bool := false
  Complete : Bool := false
  Ticket : Bool := false
deriving DecidableEq, Repr

/-- Zero result flags. -/
def noFlags : QUIC_TLS_RESULT_FLAGS := {}

/-- Embeds `QUIC_SEC_CONFIG` as the handshake paths use it: validation flags, the
pre-formatted certificate chain, and (modelled from the spec, since the
certificate collaborator is outside this repository) the oracle outcome of
`QuicCertSelect` for the held certificate. -/
structure QUIC_SEC_CONFIG where
  DisableCertValidation : Bool := false
  FormatLength : Nat := 0
  FormatBuffer : List Nat := []
  CertSelectOk : Bool := true
deriving DecidableEq, Repr

/-- Embeds the `QUIC_TLS` handshake context. `SessionAlpn` is the referenced
session's ALPN bytes; `CertParseOk` / `CertValidateOk` are oracle outcomes
of the external certificate collaborator, modelled from the spec. -/
structure QUIC_TLS where
  IsServer : Bool
  TicketReady : Bool := false
  LastMessageType : QUIC_FAKE_TLS_MESSAGE_TYPE := .INVALID
  SessionAlpn : List Nat := []
  SecConfig : Option QUIC_SEC_CONFIG := none
  SNI : Option (List Nat) := none
  LocalTPBuffer : List Nat := []
  CertParseOk : Bool := true
  CertValidateOk : Bool := true
deriving DecidableEq, Repr

/-- Embeds `QUIC_TLS_PROCESS_STATE`. -/
structure QUIC_TLS_PROCESS_STATE where
  BufferAllocLength : Nat
  BufferLength : Nat := 0
  BufferTotalLength : Nat := 0
  BufferOffsetHandshake : Nat := 0
  BufferOffset1Rtt : Nat := 0
  Buffer : List Nat := []
  EarlyDataAttempted : Bool := false
  EarlyDataAccepted : Bool := false
  HandshakeComplete : Bool := false
  ReadKey : QUIC_PACKET_KEY_TYPE := .INITIAL
  WriteKey : QUIC_PACKET_KEY_TYPE := .INITIAL
  ReadKeys : KeyTable := {}
  WriteKeys : KeyTable := {}
deriving DecidableEq, Repr

/-- Result of one processing call: result flags, drain length (the value
stored through `*BufferLength`), the updated context, the updated process
state, and the list of transport-parameter byte strings delivered through
`ReceiveTPCallback` during the call. `none` models a fail-fast abort. -/
abbrev ProcOut :=
  QUIC_TLS_RESULT_FLAGS × Nat × QUIC_TLS × QUIC_TLS_PROCESS_STATE ×
    List (List Nat)

/-- The extension-list walk of `QuicTlsServerProcess` (state
`QUIC_TLS_MESSAGE_INVALID`). Walks the list strictly by the declared
per-extension length. `sni`, `early = (EarlyDataAttempted,
EarlyDataAccepted)` and `tps` (callback deliveries) are threaded through;
`none` models the two `QUIC_FRE_ASSERT` fail-fast aborts (extension length
overrunning the remaining declared list length; unrecognized extension
type). The C guards the name capture with `SNI->NameLength != 0`, which
compares the address of the embedded array — always true — so the capture
is unconditional here. -/
def parseClientExtListAux (fuel : Nat) (sni : Option (List Nat))
    (early : Bool × Bool) (tps : List (List Nat)) (bytes : List Nat)
    (extListLength : Nat) :
    Option (Option (List Nat) × (Bool × Bool) × List (List Nat)) :=
  match fuel with
  | 0 => if extListLength = 0 then some (sni, early, tps) else none
  | fuel + 1 =>
    if extListLength = 0 then some (sni, early, tps)
    else
      let extType := tlsReadUint16 bytes 0
      let extLength := tlsReadUint16 bytes 2
      if extListLength < extLength + 4 then none
      else if extType = 0 then
        let nameLength := tlsReadUint16 bytes 7
        parseClientExtListAux fuel (some ((bytes.drop 9).take nameLength))
          early tps (bytes.drop (extLength + 4))
          (extListLength - (extLength + 4))
      else if extType = 16 then
        parseClientExtListAux fuel sni early tps
          (bytes.drop (extLength + 4)) (extListLength - (extLength + 4))
      else if extType = 35 then
        parseClientExtListAux fuel sni (true, true) tps
          (bytes.drop (extLength + 4)) (extListLength - (extLength + 4))
      else if extType = 65445 then
        parseClientExtListAux fuel sni early
          (tps ++ [(bytes.drop 4).take extLength])
          (bytes.drop (extLength + 4)) (extListLength - (extLength + 4))
      else none

/-- The extension walk, entered with fuel equal to the declared list
length. Each loop iteration consumes at least 4 declared bytes, so the
fuel — burned one unit per iteration — can never run out before
`extListLength` reaches 0: the fuel-exhausted branch of the auxiliary
function is unreachable and the function computes exactly the C loop. -/
def parseClientExtList (sni : Option (List Nat)) (early : Bool × Bool)
    (tps : List (List Nat)) (bytes : List Nat) (extListLength : Nat) :
    Option (Option (List Nat) × (Bool × Bool) × List (List Nat)) :=
  parseClientExtListAux extListLength sni early tps bytes extListLength

/-- Bytes of the serialized ServerName extension as the client writes it
(`QUIC_TLS_SNI_EXT`): the name length passes through the `uint16_t`
`strlen` cast. -/
def sniExtBytes (s : List Nat) : List Nat :=
  tlsWriteUint16 0 ++ tlsWriteUint16 (5 + s.length % 65536) ++
    tlsWriteUint16 (3 + s.length % 65536) ++ [0] ++
    tlsWriteUint16 (s.length % 65536) ++ s.take (s.length % 65536)

/-- Bytes of the serialized ALPN extension (`QUIC_TLS_ALPN_EXT`); the
session's `AlpnLength` field is a `uint16_t`. -/
def alpnExtBytes (a : List Nat) : List Nat :=
  tlsWriteUint16 16 ++ tlsWriteUint16 (3 + a.length % 65536) ++
    tlsWriteUint16 (1 + a.length % 65536) ++ [a.length % 256] ++
    a.take (a.length % 65536)

/-- Bytes of the serialized SessionTicket extension (empty value). -/
def ticketExtBytes : List Nat := tlsWriteUint16 35 ++ tlsWriteUint16 0

/-- Bytes of the serialized QuicTransportParameters extension
(`QUIC_TLS_QUIC_TP_EXT`): the declared length is the `uint16_t` cast of
`LocalTPLength`, but the `memcpy` copies the full buffer. -/
def tpExtBytes (tp : List Nat) : List Nat :=
  tlsWriteUint16 65445 ++ tlsWriteUint16 (tp.length % 65536) ++ tp

/-- The client's extension-list serialization, in the fixed order of
`QuicTlsClientProcess` (ServerName if set, ALPN always, SessionTicket if
early data is attempted, QuicTransportParameters always). -/
def serializeClientExtensions (sni : Option (List Nat)) (alpn : List Nat)
    (early : Bool) (tp : List Nat) : List Nat :=
  (match sni with
   | none => []
   | some s => sniExtBytes s) ++
  alpnExtBytes alpn ++
  (if early then ticketExtBytes else []) ++
  tpExtBytes tp

/-- The `ExtListLength` value the client accumulates in a `uint16_t`. -/
def clientExtListLength (sni : Option (List Nat)) (alpn : List Nat)
    (early : Bool) (tp : List Nat) : Nat :=
  ((match sni with
    | none => 0
    | some s => 9 + s.length % 65536) +
   (7 + alpn.length % 65536) +
   (if early then 4 else 0) +
   (4 + tp.length % 65536)) % 65536

/-- Embeds `QuicTlsServerProcess`. `buf` is the received byte buffer; the result
is `none` when the C aborts (the `QUIC_FRE_ASSERT` on a non-ClientInitial
message or inside the extension walk, or the `SecConfig` null
dereference). -/
def quicTlsServerProcess (ctx : QUIC_TLS) (st : QUIC_TLS_PROCESS_STATE)
    (buf : List Nat) : Option ProcOut :=
  match ctx.LastMessageType with
  | .INVALID =>
    if byteAt buf 0 ≠ 1 then none
    else
      match parseClientExtList ctx.SNI (false, false) [] (buf.drop 45)
          (tlsReadUint16 buf 43) with
      | none => none
      | some (sni', early', tps) =>
        let ctx1 := { ctx with SNI := sni' }
        let st1 := { st with EarlyDataAttempted := early'.1,
                             EarlyDataAccepted := early'.2 }
        match ctx.SecConfig with
        | none => none
        | some sc =>
          if sub16 st1.BufferAllocLength st1.BufferLength <
              MinMessageLengths .SERVER_INITIAL then
            some ({ Error := true }, 0, ctx1, st1, tps)
          else if ¬sc.CertSelectOk then
            some ({ Error := true }, 0, ctx1, st1, tps)
          else
            -- emit ServerInitial (MessageLength = 8, declared length 4)
            let off := st1.BufferLength
            let b1 := writeBytes st1.Buffer (off + 1) (tlsWriteUint24 4)
            let b2 := writeBytes b1 off [3]
            let b3 := writeBytes b2 (off + 4)
              [setBit1 (byteAt b2 (off + 4)) st1.EarlyDataAccepted]
            let st2 := { st1 with Buffer := b3, BufferLength := 8,
                                  BufferTotalLength := 8,
                                  BufferOffsetHandshake := 8 }
            if sub16 st2.BufferAllocLength st2.BufferLength <
                MinMessageLengths .SERVER_HANDSHAKE + sc.FormatLength then
              some ({ Error := true }, 0, ctx1, st2, tps)
            else
              let flags0 : QUIC_TLS_RESULT_FLAGS :=
                if st2.EarlyDataAccepted then
                  { EarlyDataAccept := true, ReadKeyUpdated := true,
                    WriteKeyUpdated := true, Data := true }
                else
                  { ReadKeyUpdated := true, WriteKeyUpdated := true,
                    Data := true }
              let rk0 :=
                if st2.EarlyDataAccepted then
                  st2.ReadKeys.set .ZERO_RTT (quicStubAllocKey .ZERO_RTT)
                else st2.ReadKeys
              -- emit ServerHandshake; its MessageLength is stored in a
              -- uint16_t
              let ml2 := (MinMessageLengths .SERVER_HANDSHAKE +
                sc.FormatLength) % 65536
              let off2 := st2.BufferLength
              let b4 := writeBytes st2.Buffer (off2 + 1)
                (tlsWriteUint24 ((ml2 + 16777216 - 4) % 16777216))
              let b5 := writeBytes b4 off2 [4]
              let b6 := writeBytes b5 (off2 + 4)
                [ctx.LocalTPBuffer.length % 256]
              let b7 := writeBytes b6 (off2 + 5) ctx.LocalTPBuffer
              -- CertificateLength is a native (little-endian) uint16 store
              let b8 := writeBytes b7 (off2 + 261)
                [sc.FormatLength % 256, sc.FormatLength / 256 % 256]
              let b9 := writeBytes b8 (off2 + 263)
                (sc.FormatBuffer.take sc.FormatLength)
              let st3 := { st2 with
                Buffer := b9,
                BufferLength := (st2.BufferLength + ml2) % 65536,
                BufferTotalLength := (st2.BufferTotalLength + ml2) % 65536,
                BufferOffset1Rtt := (st2.BufferTotalLength + ml2) % 65536,
                ReadKey := .HANDSHAKE,
                ReadKeys := rk0.set .HANDSHAKE (quicStubAllocKey .HANDSHAKE),
                WriteKey := .ONE_RTT,
                WriteKeys :=
                  (st2.WriteKeys.set .HANDSHAKE
                    (quicStubAllocKey .HANDSHAKE)).set .ONE_RTT
                    (quicStubAllocKey .ONE_RTT) }
              some (flags0, drain16 (tlsReadUint24 buf 1),
                { ctx1 with LastMessageType := .SERVER_HANDSHAKE }, st3, tps)
  | .SERVER_HANDSHAKE =>
    if byteAt buf 0 = 2 then
      if byteAt buf 4 = 0 then
        some ({ Error := true }, 0, ctx, st, [])
      else
        let ctx1 := { ctx with SecConfig := none }
        if sub16 st.BufferAllocLength st.BufferLength <
            MinMessageLengths .TICKET then
          some ({ Complete := true, Error := true }, 0, ctx1, st, [])
        else
          let off := st.BufferLength
          let b1 := writeBytes st.Buffer (off + 1) (tlsWriteUint24 4)
          let b2 := writeBytes b1 off [5]
          let b3 := writeBytes b2 (off + 4) [1]
          let st1 := { st with
            Buffer := b3,
            BufferLength := (st.BufferLength + 8) % 65536,
            BufferTotalLength := (st.BufferTotalLength + 8) % 65536,
            ReadKey := .ONE_RTT,
            ReadKeys := st.ReadKeys.set .ONE_RTT
              (quicStubAllocKey .ONE_RTT) }
          some ({ Complete := true, Data := true, ReadKeyUpdated := true },
            drain16 (tlsReadUint24 buf 1),
            { ctx1 with LastMessageType := .TICKET }, st1, [])
    else
      some ({ Error := true }, 0, ctx, st, [])
  | _ => some ({ Error := true }, 0, ctx, st, [])

/-- Embeds `QuicTlsClientProcess`. -/
def quicTlsClientProcess (ctx : QUIC_TLS) (st : QUIC_TLS_PROCESS_STATE)
    (buf : List Nat) : Option ProcOut :=
  match ctx.LastMessageType with
  | .INVALID =>
    -- first flight: build and emit the ClientInitial; no input consumed,
    -- and no capacity preflight is performed
    let extLL := clientExtListLength ctx.SNI ctx.SessionAlpn true
      ctx.LocalTPBuffer
    let messageLength := (41 + extLL + 4) % 65536
    let off := st.BufferLength
    let b1 := writeBytes st.Buffer off [1]
    let b2 := writeBytes b1 (off + 4) (tlsWriteUint16 770)
    let b3 := writeBytes b2 (off + 38) [0]
    let b4 := writeBytes b3 (off + 39) (tlsWriteUint16 0)
    let b5 := writeBytes b4 (off + 41) [1]
    let b6 := writeBytes b5 (off + 45)
      (serializeClientExtensions ctx.SNI ctx.SessionAlpn true
        ctx.LocalTPBuffer)
    let b7 := writeBytes b6 (off + 43) (tlsWriteUint16 extLL)
    let b8 := writeBytes b7 (off + 1)
      (tlsWriteUint24 ((messageLength + 16777216 - 4) % 16777216))
    let st1 := { st with
      EarlyDataAttempted := true,
      EarlyDataAccepted := false,
      Buffer := b8,
      BufferLength := messageLength,
      BufferTotalLength := messageLength,
      WriteKey := .ZERO_RTT,
      WriteKeys := st.WriteKeys.set .ZERO_RTT
        (quicStubAllocKey .ZERO_RTT) }
    some ({ Data := true }, 0,
      { ctx with LastMessageType := .CLIENT_INITIAL }, st1, [])
  | .CLIENT_INITIAL =>
    if byteAt buf 0 = 3 then
      let acc : Bool := byteAt buf 4 / 2 % 2 == 1
      let flags0 : QUIC_TLS_RESULT_FLAGS :=
        if st.EarlyDataAttempted then
          if acc then
            { EarlyDataAccept := true, ReadKeyUpdated := true,
              WriteKeyUpdated := true }
          else
            { EarlyDataReject := true, ReadKeyUpdated := true,
              WriteKeyUpdated := true }
        else { ReadKeyUpdated := true, WriteKeyUpdated := true }
      let st1 :=
        if st.EarlyDataAttempted then
          { st with EarlyDataAccepted := acc }
        else st
      let st2 := { st1 with
        BufferOffsetHandshake := st1.BufferTotalLength,
        ReadKey := .HANDSHAKE,
        ReadKeys := st1.ReadKeys.set .HANDSHAKE
          (quicStubAllocKey .HANDSHAKE),
        WriteKey := .HANDSHAKE,
        WriteKeys := st1.WriteKeys.set .HANDSHAKE
          (quicStubAllocKey .HANDSHAKE) }
      some (flags0, drain16 (tlsReadUint24 buf 1), ctx, st2, [])
    else if byteAt buf 0 = 4 then
      let tpLen := byteAt buf 4
      let tps := [(buf.drop 5).take tpLen]
      match ctx.SecConfig with
      | none => none
      | some sc =>
        if ¬sc.DisableCertValidation ∧ ¬ctx.CertParseOk then
          some ({ Error := true }, 0, ctx, st, tps)
        else if ¬sc.DisableCertValidation ∧ ¬ctx.CertValidateOk then
          some ({ Error := true }, 0, ctx, st, tps)
        else
          let st1 := { st with HandshakeComplete := true }
          if sub16 st1.BufferAllocLength st1.BufferLength <
              MinMessageLengths .CLIENT_HANDSHAKE then
            some ({ Complete := true, Error := true }, 0, ctx, st1, tps)
          else
            let off := st1.BufferLength
            let b1 := writeBytes st1.Buffer (off + 1) (tlsWriteUint24 4)
            let b2 := writeBytes b1 off [2]
            let b3 := writeBytes b2 (off + 4) [1]
            let st2 := { st1 with
              Buffer := b3,
              BufferLength := (st1.BufferLength + 8) % 65536,
              BufferTotalLength := (st1.BufferTotalLength + 8) % 65536,
              BufferOffset1Rtt := (st1.BufferTotalLength + 8) % 65536,
              ReadKey := .ONE_RTT,
              ReadKeys := st1.ReadKeys.set .ONE_RTT
                (quicStubAllocKey .ONE_RTT),
              WriteKey := .ONE_RTT,
              WriteKeys := st1.WriteKeys.set .ONE_RTT
                (quicStubAllocKey .ONE_RTT) }
            let flags1 : QUIC_TLS_RESULT_FLAGS :=
              { Complete := true, Data := true, ReadKeyUpdated := true,
                WriteKeyUpdated := true }
            some (flags1, drain16 (tlsReadUint24 buf 1),
              { ctx with LastMessageType := .CLIENT_HANDSHAKE }, st2, tps)
    else
      some ({ Error := true }, 0, ctx, st, [])
  | .CLIENT_HANDSHAKE =>
    if byteAt buf 0 ≠ 5 then
      some ({ Error := true }, 0, ctx, st, [])
    else
      some ({ Ticket := true }, drain16 (tlsReadUint24 buf 1),
        { ctx with TicketReady := true }, st, [])
  | _ => some ({ Error := true }, 0, ctx, st, [])

/-- Embeds `QuicTlsHasValidMessageToProcess`: the input-validity gate. -/
def quicTlsHasValidMessageToProcess (ctx : QUIC_TLS) (buf : List Nat) :
    Bool :=
  if ctx.IsServer = false ∧ ctx.LastMessageType = .INVALID ∧
      buf.length = 0 then true
  else if buf.length < 7 then false
  else if buf.length < tlsReadUint24 buf 1 + 4 then false
  else true

/-- Embeds `QuicTlsProcessData`: gate, then dispatch to the role's state
machine; a gate failure reports zero flags and zero bytes consumed. -/
def quicTlsProcessData (ctx : QUIC_TLS) (st : QUIC_TLS_PROCESS_STATE)
    (buf : List Nat) : Option ProcOut :=
  if quicTlsHasValidMessageToProcess ctx buf then
    if ctx.IsServer then quicTlsServerProcess ctx st buf
    else quicTlsClientProcess ctx st buf
  else
    some (noFlags, 0, ctx, st, [])

/-- Embeds `QuicTlsReset`: `none` models the `QUIC_DBG_ASSERT(IsServer == FALSE)`
(role restriction); for a client the last-message marker is set back to
`INVALID` unconditionally. -/
def quicTlsReset (ctx : QUIC_TLS) : Option QUIC_TLS :=
  if ctx.IsServer then none
  else some { ctx with LastMessageType := .INVALID }

/-- Embeds the `QUIC_STATUS` values used by `QuicPacketKeyUpdate`. -/
inductive QUIC_STATUS where
  | SUCCESS
  | INVALID_STATE
deriving DecidableEq, Repr

/-- Embeds `QuicPacketKeyUpdate`: fails with `INVALID_STATE` unless the old key
exists and is a 1-RTT key; on success allocates a fresh 1-RTT key. -/
def quicPacketKeyUpdate (oldKey : Option QUIC_PACKET_KEY) :
    QUIC_STATUS × Option QUIC_PACKET_KEY :=
  match oldKey with
  | none => (.INVALID_STATE, none)
  | some k =>
    if k.Type' ≠ .ONE_RTT then (.INVALID_STATE, none)
    else (.SUCCESS, some (quicStubAllocKey .ONE_RTT))

/-- Result-flag projection of a processing outcome (zero flags for an
aborted call). -/
def outFlags (r : Option ProcOut) : QUIC_TLS_RESULT_FLAGS :=
  match r with
  | some (f, _, _, _, _) => f
  | none => noFlags

/-- Drain-length projection of a processing outcome. -/
def outDrain (r : Option ProcOut) : Nat :=
  match r with
  | some (_, d, _, _, _) => d
  | none => 0

/-- Context projection of a processing outcome (with a default for an
aborted call). -/
def outCtx (r : Option ProcOut) : QUIC_TLS :=
  match r with
  | some (_, _, c, _, _) => c
  | none => { IsServer := false }

/-- Process-state projection of a processing outcome. -/
def outState (r : Option ProcOut) : QUIC_TLS_PROCESS_STATE :=
  match r with
  | some (_, _, _, s, _) => s
  | none => { BufferAllocLength := 0 }

/-- Delivered-transport-parameters projection of a processing outcome. -/
def outTps (r : Option ProcOut) : List (List Nat) :=
  match r with
  | some (_, _, _, _, t) => t
  | none => []

/-! Concrete scenario data used by the claim theorems. -/

/-- A server context for the end-to-end server scenario: SecurityConfig
with `FormatLength = 50` and 10 bytes of local transport parameters. -/
def srvCtx : QUIC_TLS :=
  { IsServer := true,
    SecConfig := some { FormatLength := 50,
                        FormatBuffer := List.replicate 50 7 },
    LocalTPBuffer := List.replicate 10 5 }

/-- A fresh 1000-byte process state for the server scenario. -/
def srvSt : QUIC_TLS_PROCESS_STATE :=
  { BufferAllocLength := 1000, Buffer := List.replicate 1000 0 }

/-- A valid ClientInitial (framed length 69, declared body length 65)
carrying SNI "a.test" and ALPN "h3". -/
def clientInitialATest : List Nat :=
  1 :: tlsWriteUint24 65 ++ List.replicate 39 0 ++ tlsWriteUint16 24 ++
    (tlsWriteUint16 0 ++ tlsWriteUint16 11 ++ tlsWriteUint16 9 ++ [0] ++
      tlsWriteUint16 6 ++ [97, 46, 116, 101, 115, 116]) ++
    (tlsWriteUint16 16 ++ tlsWriteUint16 5 ++ tlsWriteUint16 3 ++ [2] ++
      [104, 51])

/-- A ClientInitial whose extension list declares 4 bytes containing one
extension of the unrecognized type 1. -/
def clientInitialBadExt : List Nat :=
  1 :: tlsWriteUint24 45 ++ List.replicate 39 0 ++ tlsWriteUint16 4 ++
    [0, 1, 0, 0]

/-- A client context ready to emit its first flight, session ALPN "h3". -/
def cliCtx : QUIC_TLS := { IsServer := false, SessionAlpn := [104, 51] }

/-- A 16-byte process state (capacity smaller than the 62-byte first
flight). -/
def smallSt : QUIC_TLS_PROCESS_STATE :=
  { BufferAllocLength := 16, Buffer := List.replicate 16 0 }

/-- A 100-byte process state. -/
def st100 : QUIC_TLS_PROCESS_STATE :=
  { BufferAllocLength := 100, Buffer := List.replicate 100 0 }

/-- A client context that has sent ClientHandshake (awaiting Ticket). -/
def cliCtxCH : QUIC_TLS :=
  { IsServer := false, LastMessageType := .CLIENT_HANDSHAKE }

/-- A Ticket record with declared 24-bit length 65535 followed by 65535
body bytes: the framed length 65539 does not fit in 16 bits. -/
def hugeTicketMsg : List Nat := 5 :: 0 :: 255 :: 255 :: List.replicate 65535 0

/-! Claim theorems. -/

/-- C1 (code bug): the client's first flight performs no capacity
preflight. From `BufferLength = 0 < BufferAllocLength = 16` the call emits
the 62-byte ClientInitial anyway and leaves `BufferLength = 62 > 16 =
BufferAllocLength`, violating the invariant the claim states (and the
`QUIC_DBG_ASSERT(State->BufferLength < State->BufferAllocLength)` the code
itself places at the head of every processing call). -/
theorem claim_C1_bug :
    smallSt.BufferLength < smallSt.BufferAllocLength ∧
    (quicTlsProcessData cliCtx smallSt []).isSome = true ∧
    (outState (quicTlsProcessData cliCtx smallSt [])).BufferLength = 62 ∧
    (outState (quicTlsProcessData cliCtx smallSt [])).BufferAllocLength =
      16 := by
  decide

/-- C2 (counterexample): a ClientInitial whose extension list holds an
extension of the unrecognized type 1 does not make the server-from-None
call return with the Error result flag — the call never returns at all
(`QUIC_FRE_ASSERT(FALSE)` aborts the process), modelled by `none`. -/
theorem claim_C2_counterexample :
    quicTlsProcessData srvCtx srvSt clientInitialBadExt = none := by
  decide

/-- C2 (amended): when the server processes a ClientInitial from state
None and the extension walk faults — an extension type outside the closed
set, or a declared extension length (+4) exceeding the remaining declared
list length — the call aborts the process via a fail-fast assertion
(returns `none`): no Error result flag is reported and no output is
produced. -/
theorem claim_C2_amended (ctx : QUIC_TLS) (st : QUIC_TLS_PROCESS_STATE)
    (buf : List Nat)
    (hlm : ctx.LastMessageType = .INVALID)
    (hty : byteAt buf 0 = 1)
    (hparse : parseClientExtList ctx.SNI (false, false) [] (buf.drop 45)
      (tlsReadUint16 buf 43) = none) :
    quicTlsServerProcess ctx st buf = none := by
  unfold quicTlsServerProcess
  rw [hlm]
  simp [hty, hparse]

/-- C2 witness: the amended theorem applied to the concrete bad-extension
ClientInitial. -/
theorem claim_C2_witness :
    quicTlsServerProcess srvCtx srvSt clientInitialBadExt = none :=
  claim_C2_amended srvCtx srvSt clientInitialBadExt rfl rfl rfl

/-- Outcome of a call consuming a Ticket record framed with declared
length 65535, stated for any input with that header so the 65539-byte
list is never evaluated element by element. -/
theorem hugeTicket_outcome (buf : List Nat)
    (hlen : buf.length = 65539)
    (h0 : byteAt buf 0 = 5)
    (h24 : tlsReadUint24 buf 1 = 65535) :
    quicTlsProcessData cliCtxCH smallSt buf =
      some ({ Ticket := true }, 3,
        { cliCtxCH with TicketReady := true }, smallSt, []) := by
  simp [quicTlsProcessData, quicTlsClientProcess,
    quicTlsHasValidMessageToProcess, cliCtxCH, hlen, h0, h24, drain16]

/-- C3 (counterexample): a successful call (client awaiting Ticket,
result flag Ticket, no Error) consuming a Ticket record with declared
length 65535 reports 3 consumed bytes — `(uint16_t)` truncation of
65535 + 4 — not the declared length + 4 = 65539. -/
theorem claim_C3_counterexample :
    outFlags (quicTlsProcessData cliCtxCH smallSt hugeTicketMsg) =
      { Ticket := true } ∧
    outDrain (quicTlsProcessData cliCtxCH smallSt hugeTicketMsg) = 3 ∧
    tlsReadUint24 hugeTicketMsg 1 + 4 = 65539 ∧ (3 : Nat) ≠ 65539 := by
  have hlen : hugeTicketMsg.length = 65539 := by
    show (5 :: 0 :: 255 :: 255 :: List.replicate 65535 0).length = 65539
    rw [List.length_cons, List.length_cons, List.length_cons,
      List.length_cons, List.length_replicate]
  have hres := hugeTicket_outcome hugeTicketMsg hlen rfl rfl
  refine ⟨?_, ?_, ?_, by decide⟩
  · rw [hres]
    rfl
  · rw [hres]
    rfl
  · rw [show tlsReadUint24 hugeTicketMsg 1 = 65535 from rfl]

/-- C7: the client's first flight with no SNI, ALPN "h3" and empty local
transport parameters emits a 62-byte ClientInitial whose extension list is
exactly ALPN ++ SessionTicket(empty) ++ QuicTransportParameters(empty),
17 bytes, reports exactly the Data result flag, and installs a 0-RTT
write key without raising WriteKeyUpdated. -/
theorem claim_C7 :
    outFlags (quicTlsProcessData cliCtx st100 []) = { Data := true } ∧
    outDrain (quicTlsProcessData cliCtx st100 []) = 0 ∧
    (outState (quicTlsProcessData cliCtx st100 [])).BufferLength = 62 ∧
    tlsReadUint16 (outState (quicTlsProcessData cliCtx st100 [])).Buffer
      43 = 17 ∧
    ((outState (quicTlsProcessData cliCtx st100 [])).Buffer.drop 45).take
      17 =
      alpnExtBytes [104, 51] ++ ticketExtBytes ++ tpExtBytes [] ∧
    (outState (quicTlsProcessData cliCtx st100 [])).WriteKey =
      .ZERO_RTT ∧
    (outState (quicTlsProcessData cliCtx st100 [])).WriteKeys.zeroRttKey =
      some (quicStubAllocKey .ZERO_RTT) ∧
    (outCtx (quicTlsProcessData cliCtx st100 [])).LastMessageType =
      .CLIENT_INITIAL := by
  decide

/-- C4 (counterexample): in the stated scenario (server, `FormatLength =
50`, 10 local transport-parameter bytes, ClientInitial with SNI "a.test"
and ALPN "h3") the second emitted record is 324 - 8 = 316 bytes, not the
67 bytes the claim states: a ServerHandshake always occupies
`MinMessageLengths[SERVER_HANDSHAKE] = 266` bytes (with a fixed 256-byte
transport-parameter slot) plus `FormatLength`, so the output is 8 + 316 =
324 bytes, not 8 + 67 = 75. -/
theorem claim_C4_counterexample :
    (quicTlsProcessData srvCtx srvSt clientInitialATest).isSome = true ∧
    (outState
      (quicTlsProcessData srvCtx srvSt clientInitialATest)).BufferLength =
      324 ∧
    (324 : Nat) ≠ 8 + 67 := by
  decide

/-- C4 (amended): in the stated scenario the server emits a ServerInitial
record of exactly 8 bytes (header type 3, declared length 4) followed by
a ServerHandshake record of exactly 316 bytes (header type 4, declared
length 312 = 266 + 50 - 4), sets exactly the result flags ReadKeyUpdated,
WriteKeyUpdated and Data, installs the Handshake read/write keys and the
1-RTT write key, captures the SNI, and returns DrainLength 69, the
ClientInitial's full framed length. -/
theorem claim_C4_amended :
    (quicTlsProcessData srvCtx srvSt clientInitialATest).isSome = true ∧
    outFlags (quicTlsProcessData srvCtx srvSt clientInitialATest) =
      { Data := true, ReadKeyUpdated := true, WriteKeyUpdated := true } ∧
    outDrain (quicTlsProcessData srvCtx srvSt clientInitialATest) = 69 ∧
    tlsReadUint24 clientInitialATest 1 + 4 = 69 ∧
    byteAt (outState
      (quicTlsProcessData srvCtx srvSt clientInitialATest)).Buffer 0 =
      3 ∧
    tlsReadUint24 (outState
      (quicTlsProcessData srvCtx srvSt clientInitialATest)).Buffer 1 =
      4 ∧
    byteAt (outState
      (quicTlsProcessData srvCtx srvSt clientInitialATest)).Buffer 8 =
      4 ∧
    tlsReadUint24 (outState
      (quicTlsProcessData srvCtx srvSt clientInitialATest)).Buffer 9 =
      312 ∧
    (outState
      (quicTlsProcessData srvCtx srvSt clientInitialATest)).BufferLength =
      324 ∧
    (outState (quicTlsProcessData srvCtx srvSt
      clientInitialATest)).BufferOffsetHandshake = 8 ∧
    (outState (quicTlsProcessData srvCtx srvSt
      clientInitialATest)).BufferOffset1Rtt = 324 ∧
    (outState (quicTlsProcessData srvCtx srvSt
      clientInitialATest)).ReadKeys.handshakeKey =
      some (quicStubAllocKey .HANDSHAKE) ∧
    (outState (quicTlsProcessData srvCtx srvSt
      clientInitialATest)).WriteKeys.handshakeKey =
      some (quicStubAllocKey .HANDSHAKE) ∧
    (outState (quicTlsProcessData srvCtx srvSt
      clientInitialATest)).WriteKeys.oneRttKey =
      some (quicStubAllocKey .ONE_RTT) ∧
    (outCtx (quicTlsProcessData srvCtx srvSt clientInitialATest)).SNI =
      some [97, 46, 116, 101, 115, 116] ∧
    (outCtx (quicTlsProcessData srvCtx srvSt
      clientInitialATest)).LastMessageType = .SERVER_HANDSHAKE := by
  decide

/-- C9: `QuicPacketKeyUpdate` fails with `INVALID_STATE` exactly when the
old key is absent or its epoch is not 1-RTT, and succeeds with a fresh
1-RTT key handle when the old key's epoch is 1-RTT. -/
theorem claim_C9 :
    (∀ old : Option QUIC_PACKET_KEY,
      (old = none ∨ ∃ k, old = some k ∧ k.Type' ≠ .ONE_RTT) →
      quicPacketKeyUpdate old = (.INVALID_STATE, none)) ∧
    (∀ k : QUIC_PACKET_KEY, k.Type' = .ONE_RTT →
      quicPacketKeyUpdate (some k) =
        (.SUCCESS, some (quicStubAllocKey .ONE_RTT))) := by
  constructor
  · rintro old (rfl | ⟨k, rfl, hk⟩)
    · rfl
    · simp [quicPacketKeyUpdate, hk]
  · intro k hk
    simp [quicPacketKeyUpdate, hk]

/-- C9 witness: the theorem applied to a Handshake-epoch key (failure)
and a 1-RTT key (success). -/
theorem claim_C9_witness :
    quicPacketKeyUpdate (some ⟨.HANDSHAKE⟩) = (.INVALID_STATE, none) ∧
    quicPacketKeyUpdate (some ⟨.ONE_RTT⟩) =
      (.SUCCESS, some (quicStubAllocKey .ONE_RTT)) :=
  ⟨claim_C9.1 (some ⟨.HANDSHAKE⟩) (Or.inr ⟨⟨.HANDSHAKE⟩, rfl, by decide⟩),
   claim_C9.2 ⟨.ONE_RTT⟩ rfl⟩

/-- A server context whose last-message marker is `TICKET` (its final
state): any further processing call is an internal-consistency error. -/
def srvTicketCtx : QUIC_TLS := { IsServer := true, LastMessageType := .TICKET }

/-- Branch characterization of `QuicTlsServerProcess`: drain behaviour on
error and success, and the allowed `LastMessageType` transitions. -/
theorem serverProcess_spec (ctx : QUIC_TLS) (st : QUIC_TLS_PROCESS_STATE)
    (buf : List Nat) (f : QUIC_TLS_RESULT_FLAGS) (d : Nat) (c : QUIC_TLS)
    (s : QUIC_TLS_PROCESS_STATE) (t : List (List Nat))
    (h : quicTlsServerProcess ctx st buf = some (f, d, c, s, t)) :
    (f.Error = true → d = 0) ∧
    (f.Error = false → d = drain16 (tlsReadUint24 buf 1)) ∧
    (c.LastMessageType = ctx.LastMessageType ∨
      (ctx.LastMessageType = .INVALID ∧
        c.LastMessageType = .SERVER_HANDSHAKE) ∨
      (ctx.LastMessageType = .SERVER_HANDSHAKE ∧
        c.LastMessageType = .TICKET)) := by
  unfold quicTlsServerProcess at h
  cases hL : ctx.LastMessageType <;> simp only [hL] at h ⊢
  all_goals repeat' split at h
  all_goals try exact Option.noConfusion h
  all_goals
    simp only [Option.some.injEq, Prod.mk.injEq] at h
  all_goals
    obtain ⟨hf, hd, hc, hs, ht⟩ := h
  all_goals
    subst hf hd hc
  all_goals simp [hL]

/-- Branch characterization of `QuicTlsClientProcess`: drain behaviour on
error, on the first flight (state None consumes nothing), and on message
consumption, plus the allowed `LastMessageType` transitions. -/
theorem clientProcess_spec (ctx : QUIC_TLS) (st : QUIC_TLS_PROCESS_STATE)
    (buf : List Nat) (f : QUIC_TLS_RESULT_FLAGS) (d : Nat) (c : QUIC_TLS)
    (s : QUIC_TLS_PROCESS_STATE) (t : List (List Nat))
    (h : quicTlsClientProcess ctx st buf = some (f, d, c, s, t)) :
    (f.Error = true → d = 0) ∧
    (f.Error = false → ctx.LastMessageType = .INVALID → d = 0) ∧
    (f.Error = false → ctx.LastMessageType ≠ .INVALID →
      d = drain16 (tlsReadUint24 buf 1)) ∧
    (c.LastMessageType = ctx.LastMessageType ∨
      (ctx.LastMessageType = .INVALID ∧
        c.LastMessageType = .CLIENT_INITIAL) ∨
      (ctx.LastMessageType = .CLIENT_INITIAL ∧
        c.LastMessageType = .CLIENT_HANDSHAKE)) := by
  unfold quicTlsClientProcess at h
  cases hL : ctx.LastMessageType <;> simp only [hL] at h ⊢
  all_goals repeat' split at h
  all_goals try exact Option.noConfusion h
  all_goals
    simp only [Option.some.injEq, Prod.mk.injEq] at h
  all_goals
    obtain ⟨hf, hd, hc, hs, ht⟩ := h
  all_goals
    subst hf hd hc
  all_goals simp [hL]

/-- When the gate passes and the call is not a client first flight, the
input holds a full header and the declared framed length fits the
input. -/
theorem gate_bound (ctx : QUIC_TLS) (buf : List Nat)
    (hg : quicTlsHasValidMessageToProcess ctx buf = true)
    (hnot : ¬(ctx.IsServer = false ∧ ctx.LastMessageType = .INVALID ∧
      buf.length = 0)) :
    7 ≤ buf.length ∧ tlsReadUint24 buf 1 + 4 ≤ buf.length := by
  unfold quicTlsHasValidMessageToProcess at hg
  rw [if_neg hnot] at hg
  by_cases h7 : buf.length < 7
  · rw [if_pos h7] at hg
    exact absurd hg (by simp)
  · rw [if_neg h7] at hg
    by_cases hd : buf.length < tlsReadUint24 buf 1 + 4
    · rw [if_pos hd] at hg
      exact absurd hg (by simp)
    · omega

/-- C10: every processing call that returns with the Error result flag set
reports zero consumed bytes — every error branch of both role state
machines exits before the drain length is assigned from the message
header. -/
theorem claim_C10 (ctx : QUIC_TLS) (st : QUIC_TLS_PROCESS_STATE)
    (buf : List Nat) (f : QUIC_TLS_RESULT_FLAGS) (d : Nat) (c : QUIC_TLS)
    (s : QUIC_TLS_PROCESS_STATE) (t : List (List Nat))
    (h : quicTlsProcessData ctx st buf = some (f, d, c, s, t))
    (herr : f.Error = true) : d = 0 := by
  unfold quicTlsProcessData at h
  split at h
  · split at h
    · exact (serverProcess_spec ctx st buf f d c s t h).1 herr
    · exact (clientProcess_spec ctx st buf f d c s t h).1 herr
  · simp only [Option.some.injEq, Prod.mk.injEq] at h
    obtain ⟨hf, hd, -⟩ := h
    subst hf
    exact absurd herr (by simp [noFlags])

/-- C10 witness: a server in its final state (`TICKET`) given a framed
7-byte message returns Error with zero consumed bytes. -/
theorem claim_C10_witness :
    quicTlsProcessData srvTicketCtx smallSt [2, 0, 0, 0, 0, 0, 0] =
      some ({ Error := true }, 0, srvTicketCtx, smallSt, []) ∧
    (0 : Nat) = 0 :=
  ⟨by decide,
   claim_C10 srvTicketCtx smallSt [2, 0, 0, 0, 0, 0, 0] { Error := true } 0
     srvTicketCtx smallSt [] (by decide) rfl⟩

/-- C3 (amended): the consumed-byte count never exceeds the input length,
and for every successful call that consumes a message (gate passed, no
Error flag, not a client first flight) it equals the declared 24-bit
length + 4 truncated to 16 bits — hence equals declared + 4 exactly when
declared + 4 ≤ 65535. -/
theorem claim_C3_amended (ctx : QUIC_TLS) (st : QUIC_TLS_PROCESS_STATE)
    (buf : List Nat) (f : QUIC_TLS_RESULT_FLAGS) (d : Nat) (c : QUIC_TLS)
    (s : QUIC_TLS_PROCESS_STATE) (t : List (List Nat))
    (h : quicTlsProcessData ctx st buf = some (f, d, c, s, t)) :
    d ≤ buf.length ∧
    (f.Error = false →
      ¬(ctx.IsServer = false ∧ ctx.LastMessageType = .INVALID) →
      quicTlsHasValidMessageToProcess ctx buf = true →
      d = (tlsReadUint24 buf 1 + 4) % 65536 ∧
      (tlsReadUint24 buf 1 + 4 ≤ 65535 → d = tlsReadUint24 buf 1 + 4)) := by
  unfold quicTlsProcessData at h
  split at h
  case isTrue hg =>
    have hbound : ∀ x : Nat, drain16 x = (x + 4) % 65536 ∧
        drain16 x ≤ x + 4 := by
      intro x
      constructor
      · unfold drain16
        omega
      · unfold drain16
        have h1 := Nat.mod_le x 65536
        have h2 := Nat.mod_le (x % 65536 + 4) 65536
        omega
    split at h
    case isTrue hsrv =>
      obtain ⟨he, hok, -⟩ := serverProcess_spec ctx st buf f d c s t h
      have hnot : ¬(ctx.IsServer = false ∧
          ctx.LastMessageType = .INVALID ∧ buf.length = 0) := by
        simp [hsrv]
      have hgb := gate_bound ctx buf hg hnot
      constructor
      · cases hferr : f.Error
        · have hd := hok hferr
          have := (hbound (tlsReadUint24 buf 1)).2
          omega
        · have := he hferr
          omega
      · intro hferr _ _
        have hd := hok hferr
        have h1 := (hbound (tlsReadUint24 buf 1)).1
        constructor
        · omega
        · intro hle
          have : (tlsReadUint24 buf 1 + 4) % 65536 =
              tlsReadUint24 buf 1 + 4 := Nat.mod_eq_of_lt (by omega)
          omega
    case isFalse hcli =>
      obtain ⟨he, hinv, hok, -⟩ := clientProcess_spec ctx st buf f d c s t h
      have hcli' : ctx.IsServer = false := by
        cases hx : ctx.IsServer
        · rfl
        · exact absurd hx hcli
      constructor
      · cases hferr : f.Error
        · by_cases hlm : ctx.LastMessageType = .INVALID
          · have := hinv hferr hlm
            omega
          · have hd := hok hferr hlm
            have hnot : ¬(ctx.IsServer = false ∧
                ctx.LastMessageType = .INVALID ∧ buf.length = 0) := by
              simp [hlm]
            have hgb := gate_bound ctx buf hg hnot
            have := (hbound (tlsReadUint24 buf 1)).2
            omega
        · have := he hferr
          omega
      · intro hferr hnotff _
        have hlm : ctx.LastMessageType ≠ .INVALID := by
          intro hx
          exact hnotff ⟨hcli', hx⟩
        have hd := hok hferr hlm
        have h1 := (hbound (tlsReadUint24 buf 1)).1
        constructor
        · omega
        · intro hle
          have : (tlsReadUint24 buf 1 + 4) % 65536 =
              tlsReadUint24 buf 1 + 4 := Nat.mod_eq_of_lt (by omega)
          omega
  case isFalse hg =>
    simp only [Option.some.injEq, Prod.mk.injEq] at h
    obtain ⟨-, hd, -⟩ := h
    refine ⟨by omega, ?_⟩
    intro _ _ hg'
    exact absurd hg' (by simp_all)

/-- C3 witness: the amended theorem applied to the server end-to-end
scenario: the 69-byte ClientInitial is consumed with drain length
69 = 65 + 4 ≤ input length. -/
theorem claim_C3_witness :
    outDrain (quicTlsProcessData srvCtx srvSt clientInitialATest) = 69 ∧
    (69 : Nat) ≤ clientInitialATest.length ∧
    (69 : Nat) = (tlsReadUint24 clientInitialATest 1 + 4) % 65536 := by
  have h := claim_C3_amended srvCtx srvSt clientInitialATest
    { Data := true, ReadKeyUpdated := true, WriteKeyUpdated := true } 69
    (outCtx (quicTlsProcessData srvCtx srvSt clientInitialATest))
    (outState (quicTlsProcessData srvCtx srvSt clientInitialATest))
    [] (by decide)
  refine ⟨by decide, h.1, (h.2 rfl (by decide) (by decide)).1⟩

/-- A client context (certificate validation disabled) for the reset
reachability chain. -/
def c8Ctx0 : QUIC_TLS :=
  { IsServer := false, SessionAlpn := [104, 51],
    SecConfig := some { DisableCertValidation := true } }

/-- Process state for the reset reachability chain. -/
def c8St0 : QUIC_TLS_PROCESS_STATE :=
  { BufferAllocLength := 100, Buffer := List.replicate 100 0 }

/-- The chain's first call: the client emits its first flight. -/
def c8Res1 : Option ProcOut := quicTlsProcessData c8Ctx0 c8St0 []

/-- A minimal ServerHandshake record (declared length 3, empty transport
parameters). -/
def c8SrvHs : List Nat := [4, 0, 0, 3, 0, 0, 0]

/-- The chain's second call: the client processes the ServerHandshake and
advances to `CLIENT_HANDSHAKE`. -/
def c8Res2 : Option ProcOut :=
  quicTlsProcessData (outCtx c8Res1) (outState c8Res1) c8SrvHs

/-- C8 (counterexample): `QuicTlsReset` is not state-restricted. A client
that has already processed a server response (it advanced to
`CLIENT_HANDSHAKE` and signalled Complete after consuming a
ServerHandshake) is still reset to the initial state — the function
unconditionally rewinds the last-message marker for any client, so the
claim's "only before any server response has been processed" fails. -/
theorem claim_C8_counterexample :
    (outCtx c8Res1).LastMessageType = .CLIENT_INITIAL ∧
    (outCtx c8Res2).LastMessageType = .CLIENT_HANDSHAKE ∧
    (outFlags c8Res2).Complete = true ∧
    (outCtx c8Res2).LastMessageType ≠ .INVALID ∧
    quicTlsReset (outCtx c8Res2) =
      some { outCtx c8Res2 with LastMessageType := .INVALID } := by
  decide

/-- The advance-only relation on the last-message marker: a processing
call either leaves it unchanged or takes one forward edge of the fixed
role-specific sequence. -/
def allowedAdvance (ctx c : QUIC_TLS) : Prop :=
  c.LastMessageType = ctx.LastMessageType ∨
  (ctx.IsServer = true ∧ ctx.LastMessageType = .INVALID ∧
    c.LastMessageType = .SERVER_HANDSHAKE) ∨
  (ctx.IsServer = true ∧ ctx.LastMessageType = .SERVER_HANDSHAKE ∧
    c.LastMessageType = .TICKET) ∨
  (ctx.IsServer = false ∧ ctx.LastMessageType = .INVALID ∧
    c.LastMessageType = .CLIENT_INITIAL) ∨
  (ctx.IsServer = false ∧ ctx.LastMessageType = .CLIENT_INITIAL ∧
    c.LastMessageType = .CLIENT_HANDSHAKE)

/-- C8 (amended): across processing calls `LastMessageType` only ever
advances through its fixed role-specific sequence (never regresses), and
the reset operation is role-restricted (clients only, per the assertion)
but not state-restricted: it returns a client to the initial state from
any state whatsoever. -/
theorem claim_C8_amended :
    (∀ (ctx : QUIC_TLS) (st : QUIC_TLS_PROCESS_STATE) (buf : List Nat)
      (f : QUIC_TLS_RESULT_FLAGS) (d : Nat) (c : QUIC_TLS)
      (s : QUIC_TLS_PROCESS_STATE) (t : List (List Nat)),
      quicTlsProcessData ctx st buf = some (f, d, c, s, t) →
      allowedAdvance ctx c) ∧
    (∀ ctx : QUIC_TLS, ctx.IsServer = false →
      quicTlsReset ctx = some { ctx with LastMessageType := .INVALID }) := by
  constructor
  · intro ctx st buf f d c s t h
    unfold quicTlsProcessData at h
    split at h
    · split at h
      case isTrue hsrv =>
        rcases (serverProcess_spec ctx st buf f d c s t h).2.2 with
          h1 | h2 | h3
        · exact Or.inl h1
        · exact Or.inr (Or.inl ⟨hsrv, h2⟩)
        · exact Or.inr (Or.inr (Or.inl ⟨hsrv, h3⟩))
      case isFalse hcli =>
        have hcli' : ctx.IsServer = false := by
          cases hx : ctx.IsServer
          · rfl
          · exact absurd hx hcli
        rcases (clientProcess_spec ctx st buf f d c s t h).2.2.2 with
          h1 | h2 | h3
        · exact Or.inl h1
        · exact Or.inr (Or.inr (Or.inr (Or.inl ⟨hcli', h2⟩)))
        · exact Or.inr (Or.inr (Or.inr (Or.inr ⟨hcli', h3⟩)))
    · simp only [Option.some.injEq, Prod.mk.injEq] at h
      obtain ⟨-, -, hc, -⟩ := h
      subst hc
      exact Or.inl rfl
  · intro ctx hcli
    unfold quicTlsReset
    rw [if_neg (by simp [hcli])]

/-- C8 witness: the advance relation at the client first flight, and the
reset of a fresh client. -/
theorem claim_C8_witness :
    allowedAdvance cliCtx
      { cliCtx with LastMessageType := .CLIENT_INITIAL } ∧
    quicTlsReset cliCtx = some { cliCtx with LastMessageType := .INVALID } :=
  ⟨claim_C8_amended.1 cliCtx st100 [] { Data := true } 0
      { cliCtx with LastMessageType := .CLIENT_INITIAL }
      (outState (quicTlsProcessData cliCtx st100 [])) [] (by decide),
   claim_C8_amended.2 cliCtx rfl⟩

/-- C5: whenever fewer than 7 bytes are available, or the declared framed
length exceeds the bytes available, the call reports zero result flags,
zero consumed bytes and changes nothing — with the single exception of a
client in state None given zero input, which is processed normally and
produces the first ClientInitial (Data flag, zero consumed bytes, state
advanced to ClientInitial). -/
theorem claim_C5 :
    (∀ (ctx : QUIC_TLS) (st : QUIC_TLS_PROCESS_STATE) (buf : List Nat),
      (buf.length < 7 ∨ buf.length < tlsReadUint24 buf 1 + 4) →
      ¬(ctx.IsServer = false ∧ ctx.LastMessageType = .INVALID ∧
        buf.length = 0) →
      quicTlsProcessData ctx st buf = some (noFlags, 0, ctx, st, [])) ∧
    (∀ (ctx : QUIC_TLS) (st : QUIC_TLS_PROCESS_STATE),
      ctx.IsServer = false → ctx.LastMessageType = .INVALID →
      ∃ f d c s t, quicTlsProcessData ctx st [] = some (f, d, c, s, t) ∧
        f.Data = true ∧ d = 0 ∧
        c.LastMessageType = .CLIENT_INITIAL) := by
  constructor
  · intro ctx st buf hlt hnot
    have hg : quicTlsHasValidMessageToProcess ctx buf = false := by
      unfold quicTlsHasValidMessageToProcess
      rw [if_neg hnot]
      by_cases h7 : buf.length < 7
      · rw [if_pos h7]
      · rw [if_neg h7]
        rw [if_pos (by omega)]
    unfold quicTlsProcessData
    rw [hg]
    rfl
  · intro ctx st hcli hlm
    have hg : quicTlsHasValidMessageToProcess ctx [] = true := by
      unfold quicTlsHasValidMessageToProcess
      rw [if_pos ⟨hcli, hlm, rfl⟩]
    unfold quicTlsProcessData
    rw [hg, if_pos rfl, if_neg (by rw [hcli]; exact Bool.false_ne_true)]
    unfold quicTlsClientProcess
    rw [hlm]
    exact ⟨_, _, _, _, _, rfl, rfl, rfl, rfl⟩

/-- C5 witness: a 5-byte input yields zero flags, zero consumed bytes and
an unchanged state; a client in state None given zero bytes produces the
first flight. -/
theorem claim_C5_witness :
    quicTlsProcessData srvTicketCtx smallSt [0, 0, 0, 0, 0] =
      some (noFlags, 0, srvTicketCtx, smallSt, []) ∧
    ∃ f d c s t,
      quicTlsProcessData cliCtx st100 [] = some (f, d, c, s, t) ∧
      f.Data = true ∧ d = 0 ∧
      c.LastMessageType = QUIC_FAKE_TLS_MESSAGE_TYPE.CLIENT_INITIAL :=
  ⟨claim_C5.1 srvTicketCtx smallSt [0, 0, 0, 0, 0] (by decide) (by decide),
   claim_C5.2 cliCtx st100 rfl rfl⟩

/-- The extension walk computes the same result under any sufficient
fuel: with at least `extListLength` fuel the walk is the C loop. -/
theorem aux_fuel_eq (f1 : Nat) : ∀ (f2 : Nat) (sni : Option (List Nat))
    (early : Bool × Bool) (tps : List (List Nat)) (bytes : List Nat)
    (L : Nat), L ≤ f1 → L ≤ f2 →
    parseClientExtListAux f1 sni early tps bytes L =
    parseClientExtListAux f2 sni early tps bytes L := by
  induction f1 with
  | zero =>
    intro f2 sni early tps bytes L h1 h2
    have : L = 0 := by omega
    subst this
    cases f2 <;> simp [parseClientExtListAux]
  | succ k ih =>
    intro f2 sni early tps bytes L h1 h2
    by_cases hL : L = 0
    · subst hL
      cases f2 <;> simp [parseClientExtListAux]
    · cases f2 with
      | zero => omega
      | succ m =>
        simp only [parseClientExtListAux]
        rw [if_neg hL, if_neg hL]
        by_cases hov : L < tlsReadUint16 bytes 2 + 4
        · rw [if_pos hov, if_pos hov]
        · rw [if_neg hov, if_neg hov]
          have hrec : L - (tlsReadUint16 bytes 2 + 4) ≤ k ∧
              L - (tlsReadUint16 bytes 2 + 4) ≤ m := by omega
          by_cases h0 : tlsReadUint16 bytes 0 = 0
          · rw [if_pos h0, if_pos h0]
            exact ih m _ early tps _ _ hrec.1 hrec.2
          · rw [if_neg h0, if_neg h0]
            by_cases h16 : tlsReadUint16 bytes 0 = 16
            · rw [if_pos h16, if_pos h16]
              exact ih m sni early tps _ _ hrec.1 hrec.2
            · rw [if_neg h16, if_neg h16]
              by_cases h35 : tlsReadUint16 bytes 0 = 35
              · rw [if_pos h35, if_pos h35]
                exact ih m sni (true, true) tps _ _ hrec.1 hrec.2
              · rw [if_neg h35, if_neg h35]
                by_cases h65 : tlsReadUint16 bytes 0 = 65445
                · rw [if_pos h65, if_pos h65]
                  exact ih m sni early _ _ _ hrec.1 hrec.2
                · rw [if_neg h65, if_neg h65]

/-- The walk on an exhausted declared length returns its accumulated
state under any fuel. -/
theorem aux_zero (fuel : Nat) (sni : Option (List Nat))
    (early : Bool × Bool) (tps : List (List Nat)) (bytes : List Nat) :
    parseClientExtListAux fuel sni early tps bytes 0 =
    some (sni, early, tps) := by
  cases fuel <;> simp [parseClientExtListAux]

/-- Consuming one serialized ServerName extension captures exactly the
serialized name and advances past the extension. -/
theorem aux_step_sni (fuel : Nat) (sni : Option (List Nat))
    (early : Bool × Bool) (tps : List (List Nat)) (s rest : List Nat)
    (L : Nat) (hs : s.length ≤ 65530) :
    parseClientExtListAux (fuel + 1) sni early tps (sniExtBytes s ++ rest)
      (9 + s.length + L) =
    parseClientExtListAux fuel (some s) early tps rest L := by
  have hm : s.length % 65536 = s.length := Nat.mod_eq_of_lt (by omega)
  have htype : tlsReadUint16 (sniExtBytes s ++ rest) 0 = 0 := rfl
  have hlen : tlsReadUint16 (sniExtBytes s ++ rest) 2 = 5 + s.length := by
    have h : tlsReadUint16 (sniExtBytes s ++ rest) 2 =
        (5 + s.length % 65536) / 256 % 256 * 256 +
          (5 + s.length % 65536) % 256 := rfl
    rw [h, hm]
    omega
  have hname : tlsReadUint16 (sniExtBytes s ++ rest) 7 = s.length := by
    have h : tlsReadUint16 (sniExtBytes s ++ rest) 7 =
        s.length % 65536 / 256 % 256 * 256 + s.length % 65536 % 256 := rfl
    rw [h, hm]
    omega
  have hdrop9 : (sniExtBytes s ++ rest).drop 9 = s ++ rest := by
    have h : (sniExtBytes s ++ rest).drop 9 =
        s.take (s.length % 65536) ++ rest := rfl
    rw [h, hm, List.take_length]
  have hextract : ((sniExtBytes s ++ rest).drop 9).take s.length = s := by
    rw [hdrop9]
    exact List.take_left s rest
  have hdropall : (sniExtBytes s ++ rest).drop (5 + s.length + 4) =
      rest := by
    have h : 5 + s.length + 4 = 9 + s.length := by omega
    rw [h, ← List.drop_drop, hdrop9, List.drop_left]
  simp only [parseClientExtListAux]
  rw [if_neg (by omega : ¬(9 + s.length + L = 0))]
  rw [htype, hlen]
  rw [if_neg (by omega : ¬(9 + s.length + L < 5 + s.length + 4))]
  rw [if_pos rfl]
  rw [hname, hextract, hdropall]
  have h : 9 + s.length + L - (5 + s.length + 4) = L := by omega
  rw [h]

/-- Consuming one serialized ALPN extension leaves the walk state
unchanged (the server ignores ALPN) and advances past the extension. -/
theorem aux_step_alpn (fuel : Nat) (sni : Option (List Nat))
    (early : Bool × Bool) (tps : List (List Nat)) (a rest : List Nat)
    (L : Nat) (ha : a.length ≤ 65532) :
    parseClientExtListAux (fuel + 1) sni early tps
      (alpnExtBytes a ++ rest) (7 + a.length + L) =
    parseClientExtListAux fuel sni early tps rest L := by
  have hm : a.length % 65536 = a.length := Nat.mod_eq_of_lt (by omega)
  have htype : tlsReadUint16 (alpnExtBytes a ++ rest) 0 = 16 := rfl
  have hlen : tlsReadUint16 (alpnExtBytes a ++ rest) 2 = 3 + a.length := by
    have h : tlsReadUint16 (alpnExtBytes a ++ rest) 2 =
        (3 + a.length % 65536) / 256 % 256 * 256 +
          (3 + a.length % 65536) % 256 := rfl
    rw [h, hm]
    omega
  have hdrop7 : (alpnExtBytes a ++ rest).drop 7 = a ++ rest := by
    have h : (alpnExtBytes a ++ rest).drop 7 =
        a.take (a.length % 65536) ++ rest := rfl
    rw [h, hm, List.take_length]
  have hdropall : (alpnExtBytes a ++ rest).drop (3 + a.length + 4) =
      rest := by
    have h : 3 + a.length + 4 = 7 + a.length := by omega
    rw [h, ← List.drop_drop, hdrop7, List.drop_left]
  simp only [parseClientExtListAux]
  rw [if_neg (by omega : ¬(7 + a.length + L = 0))]
  rw [htype, hlen]
  rw [if_neg (by omega : ¬(7 + a.length + L < 3 + a.length + 4))]
  rw [if_neg (by omega : ¬(16 = 0)), if_pos rfl]
  rw [hdropall]
  have h : 7 + a.length + L - (3 + a.length + 4) = L := by omega
  rw [h]

/-- Consuming the serialized (empty) SessionTicket extension marks early
data attempted (and, in this stub, accepted). -/
theorem aux_step_ticket (fuel : Nat) (sni : Option (List Nat))
    (early : Bool × Bool) (tps : List (List Nat)) (rest : List Nat)
    (L : Nat) :
    parseClientExtListAux (fuel + 1) sni early tps
      (ticketExtBytes ++ rest) (4 + L) =
    parseClientExtListAux fuel sni (true, true) tps rest L := by
  have htype : tlsReadUint16 (ticketExtBytes ++ rest) 0 = 35 := rfl
  have hlen : tlsReadUint16 (ticketExtBytes ++ rest) 2 = 0 := rfl
  have hdropall : (ticketExtBytes ++ rest).drop (0 + 4) = rest := rfl
  simp only [parseClientExtListAux]
  rw [if_neg (by omega : ¬(4 + L = 0))]
  rw [htype, hlen]
  rw [if_neg (by omega : ¬(4 + L < 0 + 4))]
  rw [if_neg (by omega : ¬(35 = 0)), if_neg (by omega : ¬(35 = 16)),
    if_pos rfl]
  rw [hdropall]
  have h : 4 + L - (0 + 4) = L := by omega
  rw [h]

/-- Consuming one serialized QuicTransportParameters extension delivers
exactly the serialized bytes through the callback. -/
theorem aux_step_tp (fuel : Nat) (sni : Option (List Nat))
    (early : Bool × Bool) (tps : List (List Nat)) (tp rest : List Nat)
    (L : Nat) (ht : tp.length ≤ 65535) :
    parseClientExtListAux (fuel + 1) sni early tps
      (tpExtBytes tp ++ rest) (4 + tp.length + L) =
    parseClientExtListAux fuel sni early (tps ++ [tp]) rest L := by
  have hm : tp.length % 65536 = tp.length := Nat.mod_eq_of_lt (by omega)
  have hb0 : byteAt (tpExtBytes tp ++ rest) 0 = 255 := rfl
  have hb1 : byteAt (tpExtBytes tp ++ rest) 1 = 165 := rfl
  have htype : tlsReadUint16 (tpExtBytes tp ++ rest) 0 = 65445 := by
    unfold tlsReadUint16
    rw [hb0, hb1]
  have hlen : tlsReadUint16 (tpExtBytes tp ++ rest) 2 = tp.length := by
    have h : tlsReadUint16 (tpExtBytes tp ++ rest) 2 =
        tp.length % 65536 / 256 % 256 * 256 + tp.length % 65536 % 256 :=
      rfl
    rw [h, hm]
    omega
  have hdrop4 : (tpExtBytes tp ++ rest).drop 4 = tp ++ rest := rfl
  have hextract : ((tpExtBytes tp ++ rest).drop 4).take tp.length = tp := by
    rw [hdrop4]
    exact List.take_left tp rest
  have hdropall : (tpExtBytes tp ++ rest).drop (tp.length + 4) = rest := by
    have h : tp.length + 4 = 4 + tp.length := by omega
    rw [h, ← List.drop_drop, hdrop4, List.drop_left]
  simp only [parseClientExtListAux]
  rw [if_neg (by omega : ¬(4 + tp.length + L = 0))]
  rw [htype, hlen]
  rw [if_neg (by omega : ¬(4 + tp.length + L < tp.length + 4))]
  rw [if_neg (by omega : ¬(65445 = 0)), if_neg (by omega : ¬(65445 = 16)),
    if_neg (by omega : ¬(65445 = 35)), if_pos rfl]
  rw [hextract, hdropall]
  have h : 4 + tp.length + L - (tp.length + 4) = L := by omega
  rw [h]

/-- SNI step at constant (sufficient) fuel. -/
theorem aux_sni (fuel : Nat) (sni : Option (List Nat))
    (early : Bool × Bool) (tps : List (List Nat)) (s rest : List Nat)
    (L : Nat) (hs : s.length ≤ 65530) (hf : 9 + s.length + L ≤ fuel) :
    parseClientExtListAux fuel sni early tps (sniExtBytes s ++ rest)
      (9 + s.length + L) =
    parseClientExtListAux fuel (some s) early tps rest L := by
  obtain ⟨g, rfl⟩ : ∃ g, fuel = g + 1 := ⟨fuel - 1, by omega⟩
  rw [aux_step_sni g sni early tps s rest L hs]
  exact aux_fuel_eq g (g + 1) (some s) early tps rest L (by omega)
    (by omega)

/-- ALPN step at constant (sufficient) fuel. -/
theorem aux_alpn (fuel : Nat) (sni : Option (List Nat))
    (early : Bool × Bool) (tps : List (List Nat)) (a rest : List Nat)
    (L : Nat) (ha : a.length ≤ 65532) (hf : 7 + a.length + L ≤ fuel) :
    parseClientExtListAux fuel sni early tps (alpnExtBytes a ++ rest)
      (7 + a.length + L) =
    parseClientExtListAux fuel sni early tps rest L := by
  obtain ⟨g, rfl⟩ : ∃ g, fuel = g + 1 := ⟨fuel - 1, by omega⟩
  rw [aux_step_alpn g sni early tps a rest L ha]
  exact aux_fuel_eq g (g + 1) sni early tps rest L (by omega) (by omega)

/-- SessionTicket step at constant (sufficient) fuel. -/
theorem aux_ticket (fuel : Nat) (sni : Option (List Nat))
    (early : Bool × Bool) (tps : List (List Nat)) (rest : List Nat)
    (L : Nat) (hf : 4 + L ≤ fuel) :
    parseClientExtListAux fuel sni early tps (ticketExtBytes ++ rest)
      (4 + L) =
    parseClientExtListAux fuel sni (true, true) tps rest L := by
  obtain ⟨g, rfl⟩ : ∃ g, fuel = g + 1 := ⟨fuel - 1, by omega⟩
  rw [aux_step_ticket g sni early tps rest L]
  exact aux_fuel_eq g (g + 1) sni (true, true) tps rest L (by omega)
    (by omega)

/-- QuicTransportParameters step at constant (sufficient) fuel. -/
theorem aux_tp (fuel : Nat) (sni : Option (List Nat))
    (early : Bool × Bool) (tps : List (List Nat)) (tp rest : List Nat)
    (L : Nat) (ht : tp.length ≤ 65535) (hf : 4 + tp.length + L ≤ fuel) :
    parseClientExtListAux fuel sni early tps (tpExtBytes tp ++ rest)
      (4 + tp.length + L) =
    parseClientExtListAux fuel sni early (tps ++ [tp]) rest L := by
  obtain ⟨g, rfl⟩ : ∃ g, fuel = g + 1 := ⟨fuel - 1, by omega⟩
  rw [aux_step_tp g sni early tps tp rest L ht]
  exact aux_fuel_eq g (g + 1) sni early (tps ++ [tp]) rest L (by omega)
    (by omega)

/-- Exact byte total of a client extension list (no 16-bit truncation):
a list is "valid" when this fits the 16-bit declared-length field. -/
def extTotal (sni : Option (List Nat)) (alpn : List Nat) (early : Bool)
    (tp : List Nat) : Nat :=
  (match sni with
   | none => 0
   | some s => 9 + s.length) +
  (7 + alpn.length) + (if early then 4 else 0) + (4 + tp.length)

/-- C6: for every valid combination of optional server name, ALPN value,
early-data-attempted flag and transport-parameter bytes (total serialized
extension length within the 16-bit field), serializing the client
extension list and parsing it with the server-side extension walk
recovers the same server name and early-data-attempted flag and delivers
exactly the transport-parameter bytes through the callback. -/
theorem claim_C6 (sni : Option (List Nat)) (alpn tp : List Nat)
    (early : Bool) (h : extTotal sni alpn early tp ≤ 65535) :
    parseClientExtList none (false, false) []
      (serializeClientExtensions sni alpn early tp)
      (clientExtListLength sni alpn early tp) =
    some (sni, (early, early), [tp]) := by
  unfold parseClientExtList
  rcases sni with _ | s <;> cases early
  · simp [extTotal] at h
    have hN : clientExtListLength none alpn false tp =
        7 + alpn.length + (4 + tp.length + 0) := by
      simp [clientExtListLength]
      omega
    have hser : serializeClientExtensions none alpn false tp =
        alpnExtBytes alpn ++ (tpExtBytes tp ++ []) := by
      simp [serializeClientExtensions]
    rw [hser, hN]
    rw [aux_alpn _ none (false, false) [] alpn _ _ (by omega) (by omega)]
    rw [aux_tp _ none (false, false) [] tp [] 0 (by omega) (by omega)]
    rw [aux_zero]
    simp
  · simp [extTotal] at h
    have hN : clientExtListLength none alpn true tp =
        7 + alpn.length + (4 + (4 + tp.length + 0)) := by
      simp [clientExtListLength]
      omega
    have hser : serializeClientExtensions none alpn true tp =
        alpnExtBytes alpn ++ (ticketExtBytes ++ (tpExtBytes tp ++ [])) := by
      simp [serializeClientExtensions]
    rw [hser, hN]
    rw [aux_alpn _ none (false, false) [] alpn _ _ (by omega) (by omega)]
    rw [aux_ticket _ none (false, false) [] _ _ (by omega)]
    rw [aux_tp _ none (true, true) [] tp [] 0 (by omega) (by omega)]
    rw [aux_zero]
    simp
  · simp [extTotal] at h
    have hN : clientExtListLength (some s) alpn false tp =
        9 + s.length + (7 + alpn.length + (4 + tp.length + 0)) := by
      simp [clientExtListLength]
      omega
    have hser : serializeClientExtensions (some s) alpn false tp =
        sniExtBytes s ++ (alpnExtBytes alpn ++ (tpExtBytes tp ++ [])) := by
      simp [serializeClientExtensions]
    rw [hser, hN]
    rw [aux_sni _ none (false, false) [] s _ _ (by omega) (by omega)]
    rw [aux_alpn _ (some s) (false, false) [] alpn _ _ (by omega)
      (by omega)]
    rw [aux_tp _ (some s) (false, false) [] tp [] 0 (by omega) (by omega)]
    rw [aux_zero]
    simp
  · simp [extTotal] at h
    have hN : clientExtListLength (some s) alpn true tp =
        9 + s.length + (7 + alpn.length + (4 + (4 + tp.length + 0))) := by
      simp [clientExtListLength]
      omega
    have hser : serializeClientExtensions (some s) alpn true tp =
        sniExtBytes s ++ (alpnExtBytes alpn ++
          (ticketExtBytes ++ (tpExtBytes tp ++ []))) := by
      simp [serializeClientExtensions]
    rw [hser, hN]
    rw [aux_sni _ none (false, false) [] s _ _ (by omega) (by omega)]
    rw [aux_alpn _ (some s) (false, false) [] alpn _ _ (by omega)
      (by omega)]
    rw [aux_ticket _ (some s) (false, false) [] _ _ (by omega)]
    rw [aux_tp _ (some s) (true, true) [] tp [] 0 (by omega) (by omega)]
    rw [aux_zero]
    simp

/-- C6 witness: the roundtrip at SNI "a", ALPN "h3", early data
attempted, transport parameters `[1, 2]`. -/
theorem claim_C6_witness :
    parseClientExtList none (false, false) []
      (serializeClientExtensions (some [97]) [104, 51] true [1, 2])
      (clientExtListLength (some [97]) [104, 51] true [1, 2]) =
    some (some [97], (true, true), [[1, 2]]) :=
  claim_C6 (some [97]) [104, 51] [1, 2] true (by decide)

end TlsStub
